import Mathlib

/-!
Shallow embedding of the Accelira load-generation engine (Go sources) for
checking its natural-language specification.

Conventions:
* Go `time.Duration` is modelled as `Nat` nanoseconds; `Duration.Milliseconds()`
  is truncating division by 10^6 (`millis`).
* Go `map[int]int` is modelled as a total function `Nat → Nat` where an absent
  key reads as 0; adding the entries of one map into another is then the
  pointwise sum.
* The streaming quantile sketch (`tdigest.TDigest`) is modelled by the list of
  samples added to it, since the claims only concern which samples each sketch
  receives.
-/

namespace Accelira

/-- Go `time.Duration` in nanoseconds. -/
abbrev Duration := Nat

/-- Models `time.Duration.Milliseconds()`: whole milliseconds, truncated. -/
def millis (d : Duration) : Nat := d / 1000000

/-- Models `tdigest.TDigest` by the multiset (list) of samples added, in
milliseconds, in insertion order. -/
abbrev TDigest := List Nat

/-- Models `tdigest.New()`. -/
def TDigest.new : TDigest := []

/-- Models `TDigest.Add(x, 1)`. -/
def TDigest.add (t : TDigest) (x : Nat) : TDigest := t ++ [x]

/-- Models `metrics.MetricType` (a Go string type; the zero value is `""`). -/
abbrev MetricType := String

/-- Models the constant `metrics.HTTPRequest`. -/
def httpRequestType : MetricType := "HTTP_REQUEST"

/-- Models the constant `metrics.Error`. -/
def errorMetricType : MetricType := "ERROR"

/-- Models the constant `metrics.Group`. -/
def groupMetricType : MetricType := "GROUP"

/-- Models `metrics.EndpointMetrics` (the per-record value type from
`metrics/metrics.go`).  Field defaults are the Go zero values, so composite
literals that omit fields are translated by omitting them here too. -/
structure EndpointMetrics where
  type : MetricType := ""
  url : String := ""
  method : String := ""
  responseTime : Duration := 0
  tcpHandshakeLatency : Duration := 0
  dnsLookupLatency : Duration := 0
  tlsHandshakeLatency : Duration := 0
  bodySendLatency : Duration := 0
  bodyReceiveLatency : Duration := 0
  checkResult : Bool := false
  statusCodeCounts : Nat → Nat := fun _ => 0
  bytesReceived : Nat := 0
  bytesSent : Nat := 0
  errors : Nat := 0

/-- Models `metrics.EndpointMetricsAggregated` (the per-key aggregate from
`metrics/metrics.go`). -/
structure EndpointMetricsAggregated where
  statusCodeCounts : Nat → Nat
  totalRequests : Nat
  totalResponseTime : Duration
  responseTimesTDigest : TDigest
  totalBytesReceived : Nat
  totalBytesSent : Nat
  totalErrors : Nat
  tcpHandshakeLatencyTDigest : TDigest
  dnsLookupLatencyTDigest : TDigest
  tlsHandshakeLatencyTDigest : TDigest
  totalCheckPassed : Nat
  totalCheckFailed : Nat
  type : MetricType

/-- Models `metrics.Metrics`: a record carries a map from measurement key to
`EndpointMetrics`; producers always send singleton maps, modelled as an
association list in iteration order. -/
abbrev Metrics := List (String × EndpointMetrics)

/-! ## Aggregator (`metricsprocessor/metricsprocessor.go`, the
`EndpointMetricsAggregated` variant cited by the claims) -/

/-- Models `initializeNewMetric` (metricsprocessor.go lines 128-154): the
aggregate created for the first record of a key.  Note that the fresh
`StatusCodeCounts` map stays empty (the first record's status codes are not
merged) and that all four sketches receive one sample unconditionally, even
when the corresponding latency is zero. -/
def initNewMetric (m : EndpointMetrics) : EndpointMetricsAggregated :=
  { statusCodeCounts := fun _ => 0
    totalRequests := 1
    totalResponseTime := m.responseTime
    responseTimesTDigest := TDigest.new.add (millis m.responseTime)
    totalBytesReceived := m.bytesReceived
    totalBytesSent := m.bytesSent
    totalErrors := m.errors
    tcpHandshakeLatencyTDigest := TDigest.new.add (millis m.tcpHandshakeLatency)
    dnsLookupLatencyTDigest := TDigest.new.add (millis m.dnsLookupLatency)
    tlsHandshakeLatencyTDigest := TDigest.new.add (millis m.tlsHandshakeLatency)
    totalCheckPassed := if m.checkResult then 1 else 0
    totalCheckFailed := if m.checkResult then 0 else 1
    type := m.type }

/-- Models `mergeTDigests` (metricsprocessor.go lines 177-188): the response
time is always sampled; each latency sketch is sampled iff the latency's whole
millisecond value is strictly positive. -/
def mergeTDigests (stored : EndpointMetricsAggregated) (m : EndpointMetrics) :
    EndpointMetricsAggregated :=
  { stored with
    responseTimesTDigest := stored.responseTimesTDigest.add (millis m.responseTime)
    tcpHandshakeLatencyTDigest :=
      if 0 < millis m.tcpHandshakeLatency then
        stored.tcpHandshakeLatencyTDigest.add (millis m.tcpHandshakeLatency)
      else stored.tcpHandshakeLatencyTDigest
    dnsLookupLatencyTDigest :=
      if 0 < millis m.dnsLookupLatency then
        stored.dnsLookupLatencyTDigest.add (millis m.dnsLookupLatency)
      else stored.dnsLookupLatencyTDigest
    tlsHandshakeLatencyTDigest :=
      if 0 < millis m.tlsHandshakeLatency then
        stored.tlsHandshakeLatencyTDigest.add (millis m.tlsHandshakeLatency)
      else stored.tlsHandshakeLatencyTDigest }

/-- Models `mergeMetrics` (metricsprocessor.go lines 156-175): counters are
accumulated, every status-code entry carried by the record is added
unconditionally, exactly one of the two check counters is bumped according to
`CheckResult`, then the sketches are updated via `mergeTDigests`. -/
def mergeMetrics (stored : EndpointMetricsAggregated) (m : EndpointMetrics) :
    EndpointMetricsAggregated :=
  mergeTDigests
    { stored with
      totalRequests := stored.totalRequests + 1
      totalResponseTime := stored.totalResponseTime + m.responseTime
      totalBytesReceived := stored.totalBytesReceived + m.bytesReceived
      totalBytesSent := stored.totalBytesSent + m.bytesSent
      totalErrors := stored.totalErrors + m.errors
      totalCheckPassed := stored.totalCheckPassed + (if m.checkResult then 1 else 0)
      totalCheckFailed := stored.totalCheckFailed + (if m.checkResult then 0 else 1)
      statusCodeCounts := fun s => stored.statusCodeCounts s + m.statusCodeCounts s }
    m

/-- The aggregation map `MetricsMap`, modelled as an association list in
insertion order. -/
abbrev MetricsMap := List (String × EndpointMetricsAggregated)

/-- Association-list lookup, modelling a Go map read. -/
def lookupMetric : MetricsMap → String → Option EndpointMetricsAggregated
  | [], _ => none
  | (k, v) :: rest, key => if k = key then some v else lookupMetric rest key

/-- Association-list store, modelling a Go map write (replace if present,
append if absent). -/
def storeMetric : MetricsMap → String → EndpointMetricsAggregated → MetricsMap
  | [], key, v => [(key, v)]
  | (k, v') :: rest, key, v =>
    if k = key then (k, v) :: rest else (k, v') :: storeMetric rest key v

/-- Models `processEndpointMetric` (metricsprocessor.go lines 110-126): a miss
stores `initializeNewMetric`, a hit merges in place. -/
def processEndpointMetric (mp : MetricsMap) (key : String) (m : EndpointMetrics) :
    MetricsMap :=
  match lookupMetric mp key with
  | none => storeMetric mp key (initNewMetric m)
  | some stored => storeMetric mp key (mergeMetrics stored m)

/-- Models `processMetrics` (metricsprocessor.go lines 104-108): every entry of
the record's map is processed; there is no filtering on the metric type. -/
def processMetric (mp : MetricsMap) (rec : Metrics) : MetricsMap :=
  rec.foldl (fun mp km => processEndpointMetric mp km.1 km.2) mp

/-- Models `GatherMetrics` (metricsprocessor.go lines 96-102): fold the records
read from the queue, in order, into an initially empty map. -/
def gatherMetrics (recs : List Metrics) : MetricsMap :=
  recs.foldl processMetric []

/-- Status count stored for `key` at `status` (0 when the key is absent). -/
def aggregatedStatusCount (mp : MetricsMap) (key : String) (status : Nat) : Nat :=
  match lookupMetric mp key with
  | some a => a.statusCodeCounts status
  | none => 0

/-- Number of samples in the TCP-handshake sketch for `key` (0 when absent). -/
def aggregatedTcpSketchSize (mp : MetricsMap) (key : String) : Nat :=
  match lookupMetric mp key with
  | some a => a.tcpHandshakeLatencyTDigest.length
  | none => 0

/-! ## Record producers (`metrics/metrics.go`) -/

/-- Models `CollectGroupMetrics`: key `"group: NAME"`, method `"GROUP"`, the
group duration in `ResponseTime`, an empty status map, type `Group`. -/
def collectGroupMetrics (name : String) (duration : Duration) : String × EndpointMetrics :=
  ("group: " ++ name,
   { url := name, method := "GROUP", statusCodeCounts := fun _ => 0,
     responseTime := duration, type := groupMetricType })

/-- Models `CollectErrorMetrics` (check records): key is the check name, the
boolean outcome lands in `CheckResult`, type `Error`. -/
def collectErrorMetrics (name : String) (result : Bool) : String × EndpointMetrics :=
  (name, { url := name, method := "ERROR", type := errorMetricType, checkResult := result })

/-- Models the bounded metrics queue: a buffered Go channel of the given
capacity, holding the records in arrival order. -/
structure MetricsChannel where
  capacity : Nat
  buffer : List Metrics

/-- Models `SendMetrics` (metrics.go lines 11-17): a `select` with a `default`
branch.  If the buffer has room the record is enqueued and nothing is printed;
otherwise the record is dropped and one `"Channel is full, dropping metrics"`
line is printed.  The second component is the number of diagnostic lines
printed by this call. -/
def sendMetrics (m : Metrics) (ch : MetricsChannel) : MetricsChannel × Nat :=
  if ch.buffer.length < ch.capacity then
    ({ ch with buffer := ch.buffer ++ [m] }, 0)
  else
    (ch, 1)

/-- A producer performing a sequence of `SendMetrics` calls; returns the final
channel state and the total number of queue-full diagnostics printed. -/
def sendAll (ms : List Metrics) (ch : MetricsChannel) : MetricsChannel × Nat :=
  match ms with
  | [] => (ch, 0)
  | m :: rest =>
    let step := sendMetrics m ch
    let tail := sendAll rest step.1
    (tail.1, step.2 + tail.2)

/-! ## Instrumented HTTP client (`httpclient/httpclient.go`, the
`HTTPClient.DoRequest` variant cited by the claims) -/

/-- Models `httpclient.HttpResponse`.  Defaults are the Go zero values, so
`HttpResponse{}` is the literal `{}`. -/
structure HttpResponse where
  body : String := ""
  statusCode : Nat := 0
  url : String := ""
  method : String := ""
  duration : Duration := 0
  tcpHandshakeLatency : Duration := 0
  dnsLookupLatency : Duration := 0

/-- Models `collectMetricsWithLatencies` (httpclient.go lines 134-157): builds
the `"METHOD URL"` key and a one-request record.  The draft writes the duration
into the record's response-time field (under older field names `ResponseTimes`
/ `TotalResponseTime`), sets `StatusCodeCounts[status] = 1`, and leaves
`Errors`, `TLSHandshakeLatency` and `Type` at their zero values. -/
def collectMetricsWithLatencies (url method : String)
    (bytesReceived bytesSent statusCode : Nat)
    (duration tcpHandshakeLatency dnsLookupLatency : Duration) :
    String × EndpointMetrics :=
  (method ++ " " ++ url,
   { url := url
     method := method
     statusCodeCounts := fun s => if s = statusCode then 1 else 0
     responseTime := duration
     tcpHandshakeLatency := tcpHandshakeLatency
     dnsLookupLatency := dnsLookupLatency
     bytesReceived := bytesReceived
     bytesSent := bytesSent })

/-- The ways the transport phase (`hc.client.Do`) can fail, mirroring the
branch conditions of `DoRequest`: a `net.Error` whose `Timeout()` is true, a
`*net.OpError` with `Op == "dial"` and message `"connection refused"`, any
other `*net.OpError`, or any other error value. -/
inductive TransportError where
  | timeout
  | dialRefused
  | netOpError (msg : String)
  | otherError (msg : String)

/-- The observable outcome of one HTTP transaction, abstracting the network:
request construction fails (`http.NewRequest` error); the transport fails
after `elapsed` nanoseconds; or a response arrives with the given status,
time-to-first-byte, total time and traced latencies, whose body read either
fails (`none`) or yields a string. -/
inductive RequestOutcome where
  | buildFailure
  | transportFailure (e : TransportError) (elapsed : Duration)
  | responded (status : Nat) (ttfb totalTime tcp dns : Duration) (bodyRead : Option String)

/-- The value of one `DoRequest` call: the `HttpResponse` returned to the
script, whether the Go `error` return is non-nil, and the records handed to
`SendMetrics` during the call. -/
structure DoRequestResult where
  response : HttpResponse
  errReturned : Bool
  emitted : List (String × EndpointMetrics)

/-- Models `DoRequest` (httpclient.go lines 30-122) as a function of the
transaction outcome.
* `http.NewRequest` failure returns `HttpResponse{}` and the error; nothing is
  emitted.
* A transport failure is classified to a synthetic status (timeout 408, dial
  refused 503, other `*net.OpError` 511, anything else 500) with a matching
  body string; one record with zero bytes and zero latencies is emitted and
  the synthetic response is returned with a nil error.
* On a response, a body-read failure returns `HttpResponse{}` and the error
  without emitting; otherwise one record is emitted (bytes received = body
  length, bytes sent = `len(req.URL.String())`, duration = total response
  time) and the response (duration = time to first byte) is returned with a
  nil error. -/
def doRequest (url method : String) (o : RequestOutcome) : DoRequestResult :=
  match o with
  | .buildFailure => { response := {}, errReturned := true, emitted := [] }
  | .transportFailure e elapsed =>
    let httpResp : HttpResponse :=
      match e with
      | .timeout =>
        { body := "Request timed out", statusCode := 408,
          url := url, method := method, duration := elapsed }
      | .dialRefused =>
        { body := "Connection refused", statusCode := 503,
          url := url, method := method, duration := elapsed }
      | .netOpError msg =>
        { body := "Network error: " ++ msg, statusCode := 511,
          url := url, method := method, duration := elapsed }
      | .otherError _ =>
        { body := "An unexpected error occurred", statusCode := 500,
          url := url, method := method, duration := elapsed }
    { response := httpResp
      errReturned := false
      emitted := [collectMetricsWithLatencies url method 0 0 httpResp.statusCode elapsed 0 0] }
  | .responded status ttfb totalTime tcp dns bodyRead =>
    match bodyRead with
    | none => { response := {}, errReturned := true, emitted := [] }
    | some b =>
      { response :=
          { body := b, statusCode := status, url := url, method := method,
            duration := ttfb, tcpHandshakeLatency := tcp, dnsLookupLatency := dns }
        errReturned := false
        emitted := [collectMetricsWithLatencies url method b.length url.length status totalTime tcp dns] }

/-- The synthetic-status table of the specification (section 7), stated
independently of `doRequest` for the refinement check: timeout 408, connection
refused on dial 503, other transport/DNS/TLS failure 511, unclassified 500. -/
def specSyntheticStatus : TransportError → Nat
  | .timeout => 408
  | .dialRefused => 503
  | .netOpError _ => 511
  | .otherError _ => 500

/-! ## Script-facing response objects (`createResponseObject`, the
metrics-emitting variant cited by the claims) -/

/-- Models the JS object returned to the script: the wrapped response and
error, plus whether the object carries the `assertStatus` property.  The outer
object built by `createResponseObject` has it; the object returned by an
`assertStatus` call does not. -/
structure ResponseObject where
  response : HttpResponse
  error : Bool
  hasAssertStatusMethod : Bool

/-- Models `createResponseObject`: wraps the response with an `assertStatus`
member (whose behaviour is `assertStatusCall` below). -/
def createResponseObject (resp : HttpResponse) (err : Bool) : ResponseObject :=
  { response := resp, error := err, hasAssertStatusMethod := true }

/-- Models one invocation of the `assertStatus` member built by
`createResponseObject`: on a status mismatch it sends one record (key
`"METHOD URL"`, `StatusCodeCounts[observed] = 1`, `Errors = 1`, type `Error`)
and returns a fresh two-field object `{response, error}`; on a match it sends
nothing and returns the same two-field object.  In both cases the returned
object lacks the `assertStatus` property. -/
def assertStatusCall (resp : HttpResponse) (err : Bool) (expectedStatus : Nat) :
    ResponseObject × List (String × EndpointMetrics) :=
  if resp.statusCode ≠ expectedStatus then
    ({ response := resp, error := err, hasAssertStatusMethod := false },
     [(resp.method ++ " " ++ resp.url,
       { url := resp.url
         method := resp.method
         statusCodeCounts := fun s => if s = resp.statusCode then 1 else 0
         errors := 1
         type := errorMetricType })])
  else
    ({ response := resp, error := err, hasAssertStatusMethod := false }, [])

/-! ## Executor (`vmhandler/vmhandler.go`) -/

/-- Models `moduleloader.Config` (the variant with a duration). -/
structure Config where
  iterations : Nat
  rampUpRate : Nat
  concurrentUsers : Nat
  duration : Duration

/-- How `ExecuteExportedFunction` sees the script's exports: whether
`module.exports` itself is callable, whether `module.exports.default` exists,
and whether it is callable. -/
structure ModuleExports where
  exportsCallable : Bool
  defaultPresent : Bool
  defaultCallable : Bool

/-- What `ExecuteExportedFunction` ends up invoking. -/
inductive ExecOutcome where
  | calledExports
  | calledDefault
  | noCall
deriving DecidableEq

/-- Models `ExecuteExportedFunction` (vmhandler.go lines 29-49): if
`module.exports` is callable, call it (CommonJS); otherwise fetch
`exports.default`; if present and callable, call it (ES6); otherwise call
nothing (a diagnostic is printed). -/
def executeExportedFunction (m : ModuleExports) : ExecOutcome :=
  if m.exportsCallable then .calledExports
  else if m.defaultPresent then
    if m.defaultCallable then .calledDefault else .noCall
  else .noCall

/-- Number of times the `for time.Now().Before(endTime)` loop body runs, given
the successive clock readings observed at the loop head. -/
def loopBodyRuns (endTime : Nat) : List Nat → Nat
  | [] => 0
  | t :: ts => if t < endTime then loopBodyRuns endTime ts + 1 else 0

/-- Models `RunScriptWithPool` (vmhandler.go lines 115-135): check out a
runtime, run the script top-level once (`scriptOk` tells whether it
succeeded; on failure the function returns early), then run the exported
function while the clock is before `startTime + config.duration`.  Returns how
many times the iterated body was executed.  The `Iterations` field of the
configuration is never consulted. -/
def runScriptWithPool (scriptOk : Bool) (config : Config) (startTime : Nat)
    (clock : List Nat) : Nat :=
  if scriptOk then loopBodyRuns (startTime + config.duration) clock else 0

/-- A concrete 404 response used to exercise the assertion path. -/
def sample404 : HttpResponse :=
  { body := "not found", statusCode := 404, url := "u", method := "GET" }

/-! ## Helper lemmas about the aggregator -/

theorem lookupMetric_single (k : String) (a : EndpointMetricsAggregated) :
    lookupMetric [(k, a)] k = some a := by
  simp [lookupMetric]

theorem storeMetric_single (k : String) (a v : EndpointMetricsAggregated) :
    storeMetric [(k, a)] k v = [(k, v)] := by
  simp [storeMetric]

theorem processEndpointMetric_single (k : String) (a : EndpointMetricsAggregated)
    (m : EndpointMetrics) :
    processEndpointMetric [(k, a)] k m = [(k, mergeMetrics a m)] := by
  simp [processEndpointMetric, lookupMetric_single, storeMetric_single]

theorem processEndpointMetric_empty (k : String) (m : EndpointMetrics) :
    processEndpointMetric [] k m = [(k, initNewMetric m)] := by
  simp [processEndpointMetric, lookupMetric, storeMetric]

/-- Folding single-key records over a single-entry map only merges into that
entry. -/
theorem foldl_processMetric_single (k : String) (rs : List EndpointMetrics) :
    ∀ a : EndpointMetricsAggregated,
      List.foldl processMetric [(k, a)] (rs.map fun m => [(k, m)]) =
        [(k, List.foldl mergeMetrics a rs)] := by
  induction rs with
  | nil => intro a; rfl
  | cons m rs ih =>
    intro a
    have hstep : processMetric [(k, a)] [(k, m)] = [(k, mergeMetrics a m)] := by
      simp [processMetric, processEndpointMetric_single]
    simp only [List.map_cons, List.foldl_cons, hstep, ih]

/-- Processing a nonempty stream of records that all carry the same key yields
a one-entry map holding the fold of `mergeMetrics` over the tail, started from
`initNewMetric` on the head. -/
theorem gather_single_key (k : String) (m0 : EndpointMetrics) (rs : List EndpointMetrics) :
    gatherMetrics ((m0 :: rs).map fun m => [(k, m)]) =
      [(k, List.foldl mergeMetrics (initNewMetric m0) rs)] := by
  have hstep : processMetric [] [(k, m0)] = [(k, initNewMetric m0)] := by
    simp [processMetric, processEndpointMetric_empty]
  simp only [gatherMetrics, List.map_cons, List.foldl_cons, hstep,
    foldl_processMetric_single]

theorem mergeMetrics_totalRequests (a : EndpointMetricsAggregated) (m : EndpointMetrics) :
    (mergeMetrics a m).totalRequests = a.totalRequests + 1 := rfl

theorem mergeMetrics_responseSketch (a : EndpointMetricsAggregated) (m : EndpointMetrics) :
    (mergeMetrics a m).responseTimesTDigest =
      a.responseTimesTDigest ++ [millis m.responseTime] := rfl

theorem mergeMetrics_tcpSketch (a : EndpointMetricsAggregated) (m : EndpointMetrics) :
    (mergeMetrics a m).tcpHandshakeLatencyTDigest =
      if 0 < millis m.tcpHandshakeLatency then
        a.tcpHandshakeLatencyTDigest ++ [millis m.tcpHandshakeLatency]
      else a.tcpHandshakeLatencyTDigest := rfl

theorem mergeMetrics_dnsSketch (a : EndpointMetricsAggregated) (m : EndpointMetrics) :
    (mergeMetrics a m).dnsLookupLatencyTDigest =
      if 0 < millis m.dnsLookupLatency then
        a.dnsLookupLatencyTDigest ++ [millis m.dnsLookupLatency]
      else a.dnsLookupLatencyTDigest := rfl

theorem mergeMetrics_tlsSketch (a : EndpointMetricsAggregated) (m : EndpointMetrics) :
    (mergeMetrics a m).tlsHandshakeLatencyTDigest =
      if 0 < millis m.tlsHandshakeLatency then
        a.tlsHandshakeLatencyTDigest ++ [millis m.tlsHandshakeLatency]
      else a.tlsHandshakeLatencyTDigest := rfl

theorem mergeMetrics_checkPassed (a : EndpointMetricsAggregated) (m : EndpointMetrics) :
    (mergeMetrics a m).totalCheckPassed =
      a.totalCheckPassed + (if m.checkResult then 1 else 0) := rfl

theorem mergeMetrics_checkFailed (a : EndpointMetricsAggregated) (m : EndpointMetrics) :
    (mergeMetrics a m).totalCheckFailed =
      a.totalCheckFailed + (if m.checkResult then 0 else 1) := rfl

theorem foldl_merge_totalRequests (rs : List EndpointMetrics) :
    ∀ a : EndpointMetricsAggregated,
      (List.foldl mergeMetrics a rs).totalRequests = a.totalRequests + rs.length := by
  induction rs with
  | nil => intro a; simp
  | cons m rs ih =>
    intro a
    rw [List.foldl_cons, ih, mergeMetrics_totalRequests, List.length_cons]
    omega

theorem foldl_merge_responseSketch_length (rs : List EndpointMetrics) :
    ∀ a : EndpointMetricsAggregated,
      (List.foldl mergeMetrics a rs).responseTimesTDigest.length =
        a.responseTimesTDigest.length + rs.length := by
  induction rs with
  | nil => intro a; simp
  | cons m rs ih =>
    intro a
    rw [List.foldl_cons, ih, mergeMetrics_responseSketch, List.length_cons,
      List.length_append]
    simp
    omega

theorem foldl_merge_tcpSketch_length (rs : List EndpointMetrics) :
    ∀ a : EndpointMetricsAggregated,
      (List.foldl mergeMetrics a rs).tcpHandshakeLatencyTDigest.length =
        a.tcpHandshakeLatencyTDigest.length +
          rs.countP (fun m => decide (0 < millis m.tcpHandshakeLatency)) := by
  induction rs with
  | nil => intro a; simp
  | cons m rs ih =>
    intro a
    rw [List.foldl_cons, ih, mergeMetrics_tcpSketch, List.countP_cons]
    by_cases h : 0 < millis m.tcpHandshakeLatency
    · simp [h]; omega
    · simp [h]

theorem foldl_merge_dnsSketch_length (rs : List EndpointMetrics) :
    ∀ a : EndpointMetricsAggregated,
      (List.foldl mergeMetrics a rs).dnsLookupLatencyTDigest.length =
        a.dnsLookupLatencyTDigest.length +
          rs.countP (fun m => decide (0 < millis m.dnsLookupLatency)) := by
  induction rs with
  | nil => intro a; simp
  | cons m rs ih =>
    intro a
    rw [List.foldl_cons, ih, mergeMetrics_dnsSketch, List.countP_cons]
    by_cases h : 0 < millis m.dnsLookupLatency
    · simp [h]; omega
    · simp [h]

theorem foldl_merge_tlsSketch_length (rs : List EndpointMetrics) :
    ∀ a : EndpointMetricsAggregated,
      (List.foldl mergeMetrics a rs).tlsHandshakeLatencyTDigest.length =
        a.tlsHandshakeLatencyTDigest.length +
          rs.countP (fun m => decide (0 < millis m.tlsHandshakeLatency)) := by
  induction rs with
  | nil => intro a; simp
  | cons m rs ih =>
    intro a
    rw [List.foldl_cons, ih, mergeMetrics_tlsSketch, List.countP_cons]
    by_cases h : 0 < millis m.tlsHandshakeLatency
    · simp [h]; omega
    · simp [h]

theorem foldl_merge_checkPassed (rs : List EndpointMetrics) :
    ∀ a : EndpointMetricsAggregated,
      (List.foldl mergeMetrics a rs).totalCheckPassed =
        a.totalCheckPassed + rs.countP (fun m => m.checkResult) := by
  induction rs with
  | nil => intro a; simp
  | cons m rs ih =>
    intro a
    rw [List.foldl_cons, ih, mergeMetrics_checkPassed, List.countP_cons]
    by_cases h : m.checkResult
    · simp [h]; omega
    · simp [h]

theorem foldl_merge_checkFailed (rs : List EndpointMetrics) :
    ∀ a : EndpointMetricsAggregated,
      (List.foldl mergeMetrics a rs).totalCheckFailed =
        a.totalCheckFailed + rs.countP (fun m => !m.checkResult) := by
  induction rs with
  | nil => intro a; simp
  | cons m rs ih =>
    intro a
    rw [List.foldl_cons, ih, mergeMetrics_checkFailed, List.countP_cons]
    by_cases h : m.checkResult
    · simp [h]
    · simp [h]; omega

theorem countP_checkResult_split (l : List EndpointMetrics) :
    l.countP (fun r => r.checkResult) + l.countP (fun r => !r.checkResult) = l.length := by
  induction l with
  | nil => rfl
  | cons m l ih =>
    rw [List.countP_cons, List.countP_cons, List.length_cons]
    by_cases h : m.checkResult <;> simp [h] <;> omega

/-! ## Claims -/

/-- C1 counterexample: the aggregator does not restrict status-code counting to
records with `status_code ≥ 400` or an error flag.  Two successful status-200
records (as produced by the HTTP client) under one key leave
`status_code_counts[200] = 1` (the first record's count is discarded by
`initializeNewMetric`, the second is merged unconditionally), although the
record carries `Errors = 0` and `200 < 400`. -/
theorem C1_counterexample :
    aggregatedStatusCount
      (gatherMetrics [[collectMetricsWithLatencies "u" "GET" 13 5 200 1000000 0 0],
                      [collectMetricsWithLatencies "u" "GET" 13 5 200 1000000 0 0]])
      "GET u" 200 = 1 ∧
    (collectMetricsWithLatencies "u" "GET" 13 5 200 1000000 0 0).2.errors = 0 ∧
    200 < 400 := by
  refine ⟨rfl, rfl, by decide⟩

/-- C1 (amended): for every record merged into an existing HTTP aggregate,
`total_requests` grows by one, the duration is added to `total_response_time`,
the byte counts are added, every status-code count carried by the record is
added to `status_code_counts` unconditionally (there is no `status ≥ 400` or
error-flag condition), `total_errors` grows by the record's error count, the
duration's millisecond value is appended to the response-time sketch, and the
TCP/DNS/TLS latencies are appended to their sketches iff their whole
millisecond value is strictly positive.  (The first record of a key instead
initializes the aggregate; its status codes are discarded and its latencies
are sampled unconditionally — see C4.) -/
theorem C1_merge_per_record (k : String) (m0 : EndpointMetrics)
    (rs : List EndpointMetrics) (m : EndpointMetrics) :
    ∃ a a',
      lookupMetric (gatherMetrics ((m0 :: rs).map fun r => [(k, r)])) k = some a ∧
      lookupMetric (gatherMetrics ((m0 :: (rs ++ [m])).map fun r => [(k, r)])) k = some a' ∧
      a'.totalRequests = a.totalRequests + 1 ∧
      a'.totalResponseTime = a.totalResponseTime + m.responseTime ∧
      a'.totalBytesReceived = a.totalBytesReceived + m.bytesReceived ∧
      a'.totalBytesSent = a.totalBytesSent + m.bytesSent ∧
      (∀ s, a'.statusCodeCounts s = a.statusCodeCounts s + m.statusCodeCounts s) ∧
      a'.totalErrors = a.totalErrors + m.errors ∧
      a'.responseTimesTDigest = a.responseTimesTDigest ++ [millis m.responseTime] ∧
      a'.tcpHandshakeLatencyTDigest =
        (if 0 < millis m.tcpHandshakeLatency then
          a.tcpHandshakeLatencyTDigest ++ [millis m.tcpHandshakeLatency]
        else a.tcpHandshakeLatencyTDigest) ∧
      a'.dnsLookupLatencyTDigest =
        (if 0 < millis m.dnsLookupLatency then
          a.dnsLookupLatencyTDigest ++ [millis m.dnsLookupLatency]
        else a.dnsLookupLatencyTDigest) ∧
      a'.tlsHandshakeLatencyTDigest =
        (if 0 < millis m.tlsHandshakeLatency then
          a.tlsHandshakeLatencyTDigest ++ [millis m.tlsHandshakeLatency]
        else a.tlsHandshakeLatencyTDigest) := by
  have key : List.foldl mergeMetrics (initNewMetric m0) (rs ++ [m]) =
      mergeMetrics (List.foldl mergeMetrics (initNewMetric m0) rs) m := by
    rw [List.foldl_append]
    rfl
  refine ⟨List.foldl mergeMetrics (initNewMetric m0) rs,
      mergeMetrics (List.foldl mergeMetrics (initNewMetric m0) rs) m,
      ?_, ?_, rfl, rfl, rfl, rfl, fun s => rfl, rfl, rfl, rfl, rfl, rfl⟩
  · rw [gather_single_key, lookupMetric_single]
  · rw [gather_single_key, key, lookupMetric_single]

/-- C2 counterexample: on a response whose body read fails after the headers
arrived, `DoRequest` emits no record at all (not a record with body length
zero and an error mark) and returns a non-nil error. -/
theorem C2_counterexample :
    (doRequest "u" "GET" (.responded 200 1 2 3 4 none)).emitted = [] ∧
    (doRequest "u" "GET" (.responded 200 1 2 3 4 none)).errReturned = true := by
  exact ⟨rfl, rfl⟩

/-- C2 (amended): `DoRequest` emits exactly one record when the transport
phase concluded — a transport failure or a response whose body was read
successfully — and emits nothing when request construction fails or when the
response body read fails after the headers were received (those paths return a
non-nil error instead). -/
theorem C2_emission_per_outcome (url method : String) (o : RequestOutcome) :
    (doRequest url method o).emitted.length =
      match o with
      | .buildFailure => 0
      | .transportFailure _ _ => 1
      | .responded _ _ _ _ _ none => 0
      | .responded _ _ _ _ _ (some _) => 1 := by
  cases o with
  | buildFailure => rfl
  | transportFailure e t => rfl
  | responded s t1 t2 t3 t4 b => cases b <;> rfl

/-- C3: a failed transport request is classified exactly as the specification
table prescribes — timeout 408, connection refused on dial 503, other
transport failure 511, unclassified 500 — and both the response returned to
the script and the single emitted record carry that synthetic status. -/
theorem C3_synthetic_status (url method : String) (elapsed : Duration) (e : TransportError) :
    (doRequest url method (.transportFailure e elapsed)).response.statusCode =
      specSyntheticStatus e ∧
    (doRequest url method (.transportFailure e elapsed)).emitted =
      [collectMetricsWithLatencies url method 0 0 (specSyntheticStatus e) elapsed 0 0] ∧
    ((doRequest url method (.transportFailure e elapsed)).emitted.map
      (fun r => r.2.statusCodeCounts (specSyntheticStatus e))) = [1] := by
  cases e <;> exact ⟨rfl, rfl, rfl⟩

/-- C4 counterexample: the latency sketches do not receive samples only for
records with non-zero latency.  A single record whose TCP-handshake latency is
zero still contributes one sample to the TCP sketch, because
`initializeNewMetric` samples all four sketches unconditionally. -/
theorem C4_counterexample :
    aggregatedTcpSketchSize
      (gatherMetrics [[collectMetricsWithLatencies "u" "GET" 0 5 200 1500000 0 0]])
      "GET u" = 1 ∧
    (collectMetricsWithLatencies "u" "GET" 0 5 200 1500000 0 0).2.tcpHandshakeLatency = 0 := by
  exact ⟨rfl, rfl⟩

/-- C4 (amended): for a key that aggregated the records `m0 :: rs`, the
response-time sketch holds exactly one sample per record, so its count equals
`total_requests`; each of the TCP, DNS and TLS sketches holds one
unconditional sample from the first record (even when that latency is zero)
plus one sample for each subsequent record whose latency has a strictly
positive whole-millisecond value. -/
theorem C4_sketch_sample_counts (k : String) (m0 : EndpointMetrics)
    (rs : List EndpointMetrics) :
    ∃ a,
      lookupMetric (gatherMetrics ((m0 :: rs).map fun r => [(k, r)])) k = some a ∧
      a.totalRequests = (m0 :: rs).length ∧
      a.responseTimesTDigest.length = a.totalRequests ∧
      a.tcpHandshakeLatencyTDigest.length =
        1 + rs.countP (fun r => decide (0 < millis r.tcpHandshakeLatency)) ∧
      a.dnsLookupLatencyTDigest.length =
        1 + rs.countP (fun r => decide (0 < millis r.dnsLookupLatency)) ∧
      a.tlsHandshakeLatencyTDigest.length =
        1 + rs.countP (fun r => decide (0 < millis r.tlsHandshakeLatency)) := by
  refine ⟨List.foldl mergeMetrics (initNewMetric m0) rs, ?_, ?_, ?_, ?_, ?_, ?_⟩
  · rw [gather_single_key, lookupMetric_single]
  · rw [foldl_merge_totalRequests]
    simp [initNewMetric]
    omega
  · rw [foldl_merge_responseSketch_length, foldl_merge_totalRequests]
    simp [initNewMetric, TDigest.new, TDigest.add]
  · rw [foldl_merge_tcpSketch_length]
    simp [initNewMetric, TDigest.new, TDigest.add]
  · rw [foldl_merge_dnsSketch_length]
    simp [initNewMetric, TDigest.new, TDigest.add]
  · rw [foldl_merge_tlsSketch_length]
    simp [initNewMetric, TDigest.new, TDigest.add]

/-- C5: the live executor ignores the configured iteration count entirely:
with `iterations = 2` and `duration = 0` the iterated body runs zero times
(the claim requires exactly 2), and more generally the body-execution count of
`RunScriptWithPool` is invariant under any change to the `Iterations` field —
only `duration` drives the loop. -/
theorem C5_iterations_ignored :
    runScriptWithPool true
      { iterations := 2, rampUpRate := 0, concurrentUsers := 1, duration := 0 }
      0 [0, 1, 2, 3] = 0 ∧
    (∀ (scriptOk : Bool) (config : Config) (n startTime : Nat) (clock : List Nat),
      runScriptWithPool scriptOk { config with iterations := n } startTime clock =
        runScriptWithPool scriptOk config startTime clock) := by
  exact ⟨rfl, fun _ _ _ _ _ => rfl⟩

/-- C6 counterexample: the object built by `createResponseObject` carries the
`assertStatus` method, but the object returned by a failed `assertStatus` call
does not — so a further `assert_status` call on the returned value is not
valid, contrary to the claim (the call does emit exactly one error record). -/
theorem C6_counterexample :
    (createResponseObject sample404 false).hasAssertStatusMethod = true ∧
    (assertStatusCall sample404 false 200).1.hasAssertStatusMethod = false ∧
    (assertStatusCall sample404 false 200).2.length = 1 := by
  exact ⟨rfl, rfl, rfl⟩

/-- C6 (amended): a failed `assertStatus` does not throw: it emits exactly one
additional record — keyed `"METHOD URL"`, marked as an error (`Errors = 1`,
type `Error`) and carrying the observed status code — and returns an object
wrapping the same response and error values, but that object lacks the
`assertStatus` method, so a chained call is not possible; on a matching status
nothing is emitted and the same stripped object is returned. -/
theorem C6_assert_status_behaviour (resp : HttpResponse) (err : Bool) (expected : Nat) :
    (resp.statusCode ≠ expected →
      (assertStatusCall resp err expected).1 =
        { response := resp, error := err, hasAssertStatusMethod := false } ∧
      (assertStatusCall resp err expected).2.length = 1 ∧
      ∀ r ∈ (assertStatusCall resp err expected).2,
        r.1 = resp.method ++ " " ++ resp.url ∧
        r.2.errors = 1 ∧
        r.2.statusCodeCounts resp.statusCode = 1 ∧
        r.2.type = errorMetricType) ∧
    (resp.statusCode = expected →
      (assertStatusCall resp err expected).1 =
        { response := resp, error := err, hasAssertStatusMethod := false } ∧
      (assertStatusCall resp err expected).2 = []) := by
  constructor
  · intro h
    refine ⟨?_, ?_, ?_⟩
    · simp [assertStatusCall, h]
    · simp [assertStatusCall, h]
    · intro r hr
      simp [assertStatusCall, h] at hr
      subst hr
      refine ⟨rfl, rfl, ?_, rfl⟩
      simp
  · intro h
    exact ⟨by simp [assertStatusCall, h], by simp [assertStatusCall, h]⟩

/-- C6 witness: the amended behaviour at a concrete 404 response asserted
against 200. -/
theorem C6_witness :
    (assertStatusCall sample404 false 200).2.length = 1 ∧
    (assertStatusCall sample404 false 200).1 =
      { response := sample404, error := false, hasAssertStatusMethod := false } := by
  have h := (C6_assert_status_behaviour sample404 false 200).1 (by decide)
  exact ⟨h.2.1, h.1⟩

/-- C7 counterexample: a single producer performing two sends against a full
queue gets two queue-full diagnostics — one per dropped record, not at most
one per producer. -/
theorem C7_counterexample :
    (sendAll [[], []] { capacity := 0, buffer := [] }).2 = 2 ∧ 1 < 2 := by
  exact ⟨rfl, by decide⟩

/-- C7 (amended): record emission never blocks: when the queue has room the
record is enqueued and nothing is logged; when the queue is full the record is
dropped, the queue is left unchanged and one diagnostic line is printed — so a
producer performing a sequence of sends against a full queue logs one line per
dropped record. -/
theorem C7_drop_policy (m : Metrics) (ch : MetricsChannel) (ms : List Metrics) :
    ((sendMetrics m ch).1.buffer =
      if ch.buffer.length < ch.capacity then ch.buffer ++ [m] else ch.buffer) ∧
    ((sendMetrics m ch).2 = if ch.buffer.length < ch.capacity then 0 else 1) ∧
    (ch.capacity ≤ ch.buffer.length →
      (sendAll ms ch).1 = ch ∧ (sendAll ms ch).2 = ms.length) := by
  refine ⟨?_, ?_, ?_⟩
  · by_cases h : ch.buffer.length < ch.capacity <;> simp [sendMetrics, h]
  · by_cases h : ch.buffer.length < ch.capacity <;> simp [sendMetrics, h]
  · intro hfull
    have hnot : ¬ ch.buffer.length < ch.capacity := by omega
    have key : ∀ ms' : List Metrics, sendAll ms' ch = (ch, ms'.length) := by
      intro ms'
      induction ms' with
      | nil => rfl
      | cons m' rest ih => simp [sendAll, sendMetrics, hnot, ih, Nat.add_comm]
    rw [key ms]
    exact ⟨rfl, rfl⟩

/-- C7 witness: two sends by one producer against a capacity-0 queue leave the
queue unchanged and log two diagnostics. -/
theorem C7_witness :
    (sendAll [[], []] { capacity := 0, buffer := [] }).1 =
      { capacity := 0, buffer := [] } ∧
    (sendAll [[], []] { capacity := 0, buffer := [] }).2 = 2 := by
  have h := (C7_drop_policy [] { capacity := 0, buffer := [] } [[], []]).2.2 (by decide)
  exact ⟨h.1, h.2⟩

/-- C8: entry resolution of `ExecuteExportedFunction` follows the claimed
precedence: a callable `module.exports` is called; otherwise a present and
callable `module.exports.default` is called; otherwise nothing is invoked. -/
theorem C8_entry_resolution (m : ModuleExports) :
    (executeExportedFunction m = .calledExports ↔ m.exportsCallable = true) ∧
    (executeExportedFunction m = .calledDefault ↔
      (m.exportsCallable = false ∧ m.defaultPresent = true ∧ m.defaultCallable = true)) ∧
    (executeExportedFunction m = .noCall ↔
      (m.exportsCallable = false ∧
        (m.defaultPresent = false ∨ m.defaultCallable = false))) := by
  rcases m with ⟨e, p, c⟩
  cases e <;> cases p <;> cases c <;> decide

/-- C9: `DoRequest` returns a nil error exactly when the transport phase
concluded — transport failures return the synthetic response (carrying the
request's url and method) with a nil error; a non-nil error is returned only
when building the request fails or when reading the response body fails. -/
theorem C9_nil_error_on_transport_failure (url method : String) :
    (∀ (e : TransportError) (t : Duration),
      (doRequest url method (.transportFailure e t)).errReturned = false ∧
      (doRequest url method (.transportFailure e t)).response.url = url ∧
      (doRequest url method (.transportFailure e t)).response.method = method) ∧
    (doRequest url method .buildFailure).errReturned = true ∧
    (∀ (s : Nat) (t1 t2 tcp dns : Duration),
      (doRequest url method (.responded s t1 t2 tcp dns none)).errReturned = true) ∧
    (∀ (s : Nat) (t1 t2 tcp dns : Duration) (b : String),
      (doRequest url method (.responded s t1 t2 tcp dns (some b))).errReturned = false) := by
  refine ⟨fun e t => ?_, rfl, fun s t1 t2 tcp dns => rfl, fun s t1 t2 tcp dns b => rfl⟩
  cases e <;> exact ⟨rfl, rfl, rfl⟩

/-- C10: after the aggregator processed the records `m0 :: rs` for one key,
`TotalRequests` equals the number of records and every record — of any type —
bumped exactly one of the two check counters according to its `CheckResult`
field, so `TotalCheckPassed + TotalCheckFailed` also equals the number of
records. -/
theorem C10_check_counter_invariant (k : String) (m0 : EndpointMetrics)
    (rs : List EndpointMetrics) :
    ∃ a,
      lookupMetric (gatherMetrics ((m0 :: rs).map fun r => [(k, r)])) k = some a ∧
      a.totalRequests = (m0 :: rs).length ∧
      a.totalCheckPassed = (m0 :: rs).countP (fun r => r.checkResult) ∧
      a.totalCheckFailed = (m0 :: rs).countP (fun r => !r.checkResult) ∧
      a.totalCheckPassed + a.totalCheckFailed = (m0 :: rs).length := by
  refine ⟨List.foldl mergeMetrics (initNewMetric m0) rs, ?_, ?_, ?_, ?_, ?_⟩
  · rw [gather_single_key, lookupMetric_single]
  · rw [foldl_merge_totalRequests]
    simp [initNewMetric]
    omega
  · rw [foldl_merge_checkPassed, List.countP_cons]
    by_cases h : m0.checkResult <;> simp [initNewMetric, h, Nat.add_comm]
  · rw [foldl_merge_checkFailed, List.countP_cons]
    by_cases h : m0.checkResult <;> simp [initNewMetric, h, Nat.add_comm]
  · rw [foldl_merge_checkPassed, foldl_merge_checkFailed]
    have hsplit := countP_checkResult_split rs
    by_cases h : m0.checkResult <;> simp [initNewMetric, h, List.length_cons] <;> omega

end Accelira
